import Mathlib

/-!
Shallow embedding of `reflect.go`, a small DNS server built on the
`github.com/miekg/dns` library.  The two request handlers
(`handleReflect`, `handleSqlite`) are modelled as pure functions; the
pieces the handlers receive from the library or the runtime — the wire
serializer `Msg.Pack`, the pretty-printer `Msg.String`, the current
time, the TSIG verification status computed by the server before the
handler runs, and the success of `Transfer.Out` — are passed in as
parameters.  Go panics (index out of range) are modelled as an explicit
out-of-bounds outcome.
-/

namespace DnsReflect

/-- The transport a session arrived on: `w.RemoteAddr()` is a
`*net.UDPAddr` or a `*net.TCPAddr`. -/
inductive Transport
  | udp
  | tcp
  deriving DecidableEq

/-- A remote IP address.  `a.To4() != nil` in the Go code is exactly the
question of which variant the address is: `v4` carries the four bytes
returned by `To4`, `v6` the sixteen-byte form. -/
inductive IP
  | v4 (b0 b1 b2 b3 : Nat)
  | v6 (bytes : List Nat)
  deriving DecidableEq

/-- The per-query session: transport kind, remote address and remote
port, read off `w.RemoteAddr()` in `handleReflect`. -/
structure Session where
  transport : Transport
  ip : IP
  port : Nat
  deriving DecidableEq

/- Record type and class constants of the miekg/dns library, as used by
reflect.go. -/
def typeA : Nat := 1
def typeSOA : Nat := 6
def typeTXT : Nat := 16
def typeAAAA : Nat := 28
def typeTSIG : Nat := 250
def typeIXFR : Nat := 251
def typeAXFR : Nat := 252
def typeANY : Nat := 255
def classINET : Nat := 1
def classANY : Nat := 255

/-- `dns.HmacMD5`, the algorithm name passed to `m.SetTsig`. -/
def hmacMD5 : String := "hmac-md5.sig-alg.reg.int."

/-- `dns.RR_Header`: owner name, record type, class, time to live. -/
structure RRHeader where
  name : String
  rrtype : Nat
  cls : Nat
  ttl : Nat
  deriving DecidableEq

/-- The resource records reflect.go constructs: `dns.A`, `dns.AAAA`,
`dns.TXT`, `dns.SOA`, `dns.ANY` and `dns.TSIG` (the latter as appended
by `Msg.SetTsig`). -/
inductive RR
  | a (hdr : RRHeader) (addr : IP)
  | aaaa (hdr : RRHeader) (addr : IP)
  | txt (hdr : RRHeader) (texts : List String)
  | soa (hdr : RRHeader) (ns mbox : String) (serial refresh retryIvl expire minttl : Nat)
  | any (hdr : RRHeader)
  | tsig (hdr : RRHeader) (algorithm : String) (fudge : Nat) (timeSigned : Int)
  deriving DecidableEq

/-- `RR.Header()`: the header of any record variant. -/
def RR.hdr : RR → RRHeader
  | .a h _ => h
  | .aaaa h _ => h
  | .txt h _ => h
  | .soa h _ _ _ _ _ _ _ => h
  | .any h => h
  | .tsig h _ _ _ => h

/-- Whether a record is a TXT record. -/
def RR.isTXTrec : RR → Bool
  | .txt _ _ => true
  | _ => false

/-- Whether a record is an address record (A or AAAA). -/
def RR.isAddrRec : RR → Bool
  | .a _ _ => true
  | .aaaa _ _ => true
  | _ => false

/-- Whether a record is a TSIG record. -/
def RR.isTSIGrec : RR → Bool
  | .tsig _ _ _ _ => true
  | _ => false

/-- Whether a record is an ANY record. -/
def RR.isANYrec : RR → Bool
  | .any _ => true
  | _ => false

/-- `dns.Question`: one entry of a message's question section. -/
structure Question where
  name : String
  qtype : Nat
  qclass : Nat
  deriving DecidableEq

/-- `dns.Msg`, restricted to the fields reflect.go reads or writes. -/
structure Msg where
  id : Nat := 0
  response : Bool := false
  recursionDesired : Bool := false
  compress : Bool := false
  truncated : Bool := false
  question : List Question := []
  answer : List RR := []
  extra : List RR := []
  deriving DecidableEq

/-- `Msg.SetReply` of the miekg/dns library: copies the id and the
recursion-desired bit, marks the message a response, and mirrors the
request's first question (when there is one) as the reply's question. -/
def setReply (request : Msg) : Msg :=
  { id := request.id
    recursionDesired := request.recursionDesired
    response := true
    question :=
      match request.question with
      | [] => []
      | q :: _ => [q] }

/-- `Msg.IsTsig` of the miekg/dns library: the last record of the extra
section, when that record is a TSIG record. -/
def isTsig (r : Msg) : Option RR :=
  match r.extra.getLast? with
  | some rr => if rr.isTSIGrec then some rr else none
  | none => none

/-- `Msg.SetTsig` of the miekg/dns library: appends a TSIG record with
owner name `z`, class ANY, TTL 0, the given algorithm, fudge and signing
time to the extra section. -/
def setTsig (m : Msg) (z algo : String) (fudge : Nat) (timesigned : Int) : Msg :=
  { m with extra := m.extra ++ [.tsig ⟨z, typeTSIG, classANY, 0⟩ algo fudge timesigned] }

/-- `const dom = "whoami.miek.nl."`. -/
def dom : String := "whoami.miek.nl."

/-- The SOA record parsed by `dns.NewRR` in the AXFR/IXFR branch. -/
def soaRR : RR :=
  .soa ⟨dom, typeSOA, classINET, 0⟩ "linode.atoom.net." "miek.miek.nl."
    2009032802 21600 7200 604800 3600

/-- The self-address record: an A record with the session's four IPv4
bytes when `a.To4() != nil`, otherwise an AAAA record with the IPv6
address; TTL 0 either way. -/
def addrRR (w : Session) : RR :=
  match w.ip with
  | .v4 b0 b1 b2 b3 => .a ⟨dom, typeA, classINET, 0⟩ (.v4 b0 b1 b2 b3)
  | .v6 bs => .aaaa ⟨dom, typeAAAA, classINET, 0⟩ (.v6 bs)

/-- The reflected text `"Port: <port> (udp)"` or `"Port: <port> (tcp)"`. -/
def txtStr (w : Session) : String :=
  "Port: " ++ toString w.port ++
    (match w.transport with
     | .udp => " (udp)"
     | .tcp => " (tcp)")

/-- The self-describing TXT record with TTL 0. -/
def txtRR (w : Session) : RR :=
  .txt ⟨dom, typeTXT, classINET, 0⟩ [txtStr w]

/-- What a handler invocation does on the wire. -/
inductive Action
  | reply (m : Msg)
  | truncatedWrite (m : Msg) (sent : List Nat)
  | transfer (env : List RR)
  | transferAbort
  | oob
  deriving DecidableEq

/-- The message carried by a normal or truncated single reply. -/
def sentMsg : Action → Option Msg
  | .reply m => some m
  | .truncatedWrite m _ => some m
  | _ => none

/-- Result of one handler invocation: the new value of the global
counter, the lines printed, and the wire action. -/
structure HandlerResult where
  counter : Nat
  logs : List String
  action : Action
  deriving DecidableEq

/-- The progress line printed on every 1000th reflection. -/
def progressLine (n : Nat) : String :=
  "Served " ++ toString n ++ " reflections"

/-- The tail of `handleReflect` shared by the TXT and the A/AAAA/default
branches: TSIG handling, optional reply printing, and the `tc.miek.nl.`
truncation check before the final `WriteMsg`. -/
def finishReply (pack : Msg → List Nat) (render : Msg → String)
    (printFlag : Bool) (now : Int) (r : Msg) (tsigStatus : Option String)
    (c1 : Nat) (logs0 : List String) (m : Msg) : HandlerResult :=
  let step :=
    match isTsig r, tsigStatus with
    | some ts, none => (setTsig m ts.hdr.name hmacMD5 300 now, logs0)
    | some _, some e => (m, logs0 ++ ["Status " ++ e])
    | none, _ => (m, logs0)
  let m1 := step.1
  let logs1 := step.2
  let logs2 := if printFlag then logs1 ++ [render m1] else logs1
  match m1.question with
  | [] => ⟨c1, logs2, .oob⟩
  | q0 :: _ =>
    if q0.name = "tc.miek.nl." then
      let m2 := { m1 with truncated := true }
      let buf := pack m2
      ⟨c1, logs2, .truncatedWrite m2 (buf.take (buf.length / 2))⟩
    else
      ⟨c1, logs2, .reply m1⟩

/-- `handleReflect`.  `pack` stands for `Msg.Pack`, `render` for
`Msg.String`, `printFlag` and `compressFlag` for the `-print` and
`-compress` flags, `now` for `time.Now().Unix()`, `trOutOk` for
`tr.Out` returning nil, `tsigStatus` for `w.TsigStatus()` (`none` means
no verification error), and `counter` for the global `reflectHandled`
before the call. -/
def handleReflect (pack : Msg → List Nat) (render : Msg → String)
    (printFlag compressFlag : Bool) (now : Int) (trOutOk : Bool)
    (w : Session) (r : Msg) (tsigStatus : Option String)
    (counter : Nat) : HandlerResult :=
  let c1 := counter + 1
  let logs0 := if c1 % 1000 = 0 then [progressLine c1] else []
  match r.question with
  | [] => ⟨c1, logs0, .oob⟩
  | q :: _ =>
    let m := { setReply r with compress := compressFlag }
    let rr := addrRR w
    let t := txtRR w
    if q.qtype = typeTXT then
      finishReply pack render printFlag now r tsigStatus c1 logs0
        { m with answer := m.answer ++ [t], extra := m.extra ++ [rr] }
    else if q.qtype = typeAXFR ∨ q.qtype = typeIXFR then
      if trOutOk then
        ⟨c1, logs0, .transfer [soaRR, t, rr, soaRR]⟩
      else
        ⟨c1, logs0, .transferAbort⟩
    else
      finishReply pack render printFlag now r tsigStatus c1 logs0
        { m with answer := m.answer ++ [rr], extra := m.extra ++ [t] }

/-- One row of the sqlite `records` table: (name, type, ttl, rdata). -/
structure DbRow where
  name : String
  rrtype : String
  ttl : Int
  rdata : String
  deriving DecidableEq

/-- `lookUpNameInDb`: runs `select * from records where name = ? and
type = ?` and scans every returned row into the same variables, so the
last matching row wins; with no matching row the zero values `(0, "")`
are returned.  The error return is nil unless row scanning fails, and
reflect.go's caller treats it as nil, so it is not modelled. -/
def lookUpNameInDb (db : List DbRow) (nm tp : String) : Int × String :=
  (db.filter (fun row => row.name = nm ∧ row.rrtype = tp)).foldl
    (fun _ row => (row.ttl, row.rdata)) (0, "")

/-- `strconv.Atoi`: optional sign, decimal digits; returns 0 on a syntax
error (reflect.go ignores the error), and the clamped 64-bit value on
range overflow. -/
def goAtoi (s : String) : Int :=
  let signDigits : Int × List Char :=
    match s.toList with
    | '+' :: rest => (1, rest)
    | '-' :: rest => (-1, rest)
    | cs => (1, cs)
  let digitVal : Option Nat :=
    signDigits.2.foldl
      (fun acc c =>
        match acc with
        | none => none
        | some n => if c.isDigit then some (n * 10 + (c.toNat - 48)) else none)
      (some 0)
  if signDigits.2.isEmpty then 0
  else
    match digitVal with
    | none => 0
    | some n =>
      let v : Int := signDigits.1 * n
      if v > 2 ^ 63 - 1 then 2 ^ 63 - 1
      else if v < -(2 ^ 63) then -(2 ^ 63)
      else v

/-- `uint32(ttl)`: Go's integer conversion to uint32. -/
def toUint32 (v : Int) : Nat :=
  (v.emod (2 ^ 32)).toNat

/-- `byte(octetInt)`: Go's integer conversion to byte. -/
def toByte (v : Int) : Nat :=
  (v.emod 256).toNat

/-- Helper for `goSplitDot`: walks the characters, accumulating the
current piece in reverse. -/
def splitDotAux : List Char → List Char → List String
  | [], acc => [String.mk acc.reverse]
  | c :: cs, acc =>
    if c = '.' then String.mk acc.reverse :: splitDotAux cs []
    else splitDotAux cs (c :: acc)

/-- `strings.Split(s, ".")`: the dot-separated pieces of `s`; splitting
the empty string yields one empty piece. -/
def goSplitDot (s : String) : List String :=
  splitDotAux s.toList []

/-- The octet-parsing loop of `handleSqlite`'s A branch: the rdata is
split on dots into `stringOctets`, each piece goes through `Atoi` and a
byte conversion into a fixed four-element array; more than four pieces
make the loop index out of range (`none`), fewer leave the remaining
array entries zero. -/
def parseOctets (rdata : String) : Option (Nat × Nat × Nat × Nat) :=
  let parts := goSplitDot rdata
  if parts.length > 4 then none
  else
    let get : Nat → Nat := fun i =>
      match parts[i]? with
      | some s => toByte (goAtoi s)
      | none => 0
    some (get 0, get 1, get 2, get 3)

/-- `handleSqlite`: answers A queries from the sqlite store and
everything else with an empty ANY record of TTL 60.  `none` models a Go
panic (empty question section, or an rdata with more than four
dot-separated pieces). -/
def handleSqlite (db : List DbRow) (r : Msg) : Option Msg :=
  let m := setReply r
  match r.question with
  | [] => none
  | q :: _ =>
    if q.qtype = typeA then
      let looked := lookUpNameInDb db q.name "A"
      match parseOctets looked.2 with
      | none => none
      | some (b0, b1, b2, b3) =>
        let rr : RR := .a ⟨q.name, typeA, classINET, toUint32 looked.1⟩ (.v4 b0 b1 b2 b3)
        some { m with answer := m.answer ++ [rr] }
    else
      let rr : RR := .any ⟨q.name, typeANY, classINET, 60⟩
      some { m with answer := m.answer ++ [rr] }

/-!
The global counter `reflectHandled += 1` is a plain non-atomic
read-modify-write on an `int` shared by the tcp and udp listeners: a
load of the shared counter followed by a store of the loaded value plus
one, with no synchronization between the two steps.  The small
interleaving model below makes those two steps explicit for two
concurrent handler invocations.
-/

/-- One thread executing `reflectHandled += 1`: program counter 0 is
before the load, 1 is between load and store (`reg` holds the loaded
value), 2 is done. -/
structure ThreadSt where
  pc : Nat
  reg : Nat
  deriving DecidableEq

/-- One step of a thread against the shared counter. -/
def incStep (shared : Nat) (t : ThreadSt) : Nat × ThreadSt :=
  match t.pc with
  | 0 => (shared, ⟨1, shared⟩)
  | 1 => (t.reg + 1, ⟨2, t.reg⟩)
  | _ => (shared, t)

/-- Shared counter plus the two listener threads. -/
structure RaceState where
  shared : Nat
  t1 : ThreadSt
  t2 : ThreadSt
  deriving DecidableEq

/-- Run one step of thread 1 (`true`) or thread 2 (`false`). -/
def raceStep (s : RaceState) (pickFirst : Bool) : RaceState :=
  if pickFirst then
    let st := incStep s.shared s.t1
    { s with shared := st.1, t1 := st.2 }
  else
    let st := incStep s.shared s.t2
    { s with shared := st.1, t2 := st.2 }

/-- Run a schedule (a list of thread choices) from a state. -/
def runRace (sched : List Bool) (s : RaceState) : RaceState :=
  sched.foldl raceStep s

/-! Helper lemmas about the record-kind predicates and the handler. -/

theorem isAddrRec_addrRR (w : Session) : (addrRR w).isAddrRec = true := by
  cases h : w.ip <;> simp [addrRR, h, RR.isAddrRec]

theorem isTXTrec_addrRR (w : Session) : (addrRR w).isTXTrec = false := by
  cases h : w.ip <;> simp [addrRR, h, RR.isTXTrec]

theorem isTSIGrec_addrRR (w : Session) : (addrRR w).isTSIGrec = false := by
  cases h : w.ip <;> simp [addrRR, h, RR.isTSIGrec]

theorem isAddrRec_txt (h : RRHeader) (ls : List String) :
    (RR.txt h ls).isAddrRec = false := rfl

theorem isTXTrec_txt (h : RRHeader) (ls : List String) :
    (RR.txt h ls).isTXTrec = true := rfl

theorem isTSIGrec_txt (h : RRHeader) (ls : List String) :
    (RR.txt h ls).isTSIGrec = false := rfl

theorem isAddrRec_tsig (h : RRHeader) (algo : String) (f : Nat) (ti : Int) :
    (RR.tsig h algo f ti).isAddrRec = false := rfl

theorem isTXTrec_tsig (h : RRHeader) (algo : String) (f : Nat) (ti : Int) :
    (RR.tsig h algo f ti).isTXTrec = false := rfl

theorem isTSIGrec_tsig (h : RRHeader) (algo : String) (f : Nat) (ti : Int) :
    (RR.tsig h algo f ti).isTSIGrec = true := rfl

/-- Full characterization of `finishReply` for a message whose question
section is nonempty: the TSIG branch possibly appends one TSIG record to
the extra section and possibly logs the failure status, and the
`tc.miek.nl.` check decides between a truncated write of the first
`floor(len/2)` packed bytes and a normal reply. -/
theorem finishReply_eq_q (pack : Msg → List Nat) (render : Msg → String)
    (printFlag : Bool) (now : Int) (r : Msg) (tsigStatus : Option String)
    (c1 : Nat) (logs0 : List String) (m : Msg) (q0 : Question) (qrest : List Question)
    (hq : m.question = q0 :: qrest) :
    finishReply pack render printFlag now r tsigStatus c1 logs0 m =
      let m1 : Msg := { m with extra := m.extra ++
        (match isTsig r, tsigStatus with
         | some ts, none => [.tsig ⟨ts.hdr.name, typeTSIG, classANY, 0⟩ hmacMD5 300 now]
         | _, _ => []) }
      let logs : List String := (logs0 ++
        (match isTsig r, tsigStatus with
         | some _, some e => ["Status " ++ e]
         | _, _ => [])) ++ (if printFlag then [render m1] else [])
      ⟨c1, logs,
        if q0.name = "tc.miek.nl." then
          Action.truncatedWrite { m1 with truncated := true }
            ((pack { m1 with truncated := true }).take
              ((pack { m1 with truncated := true }).length / 2))
        else Action.reply m1⟩ := by
  obtain ⟨mid, resp, rd, cp, tr, qs, ans, ext⟩ := m
  simp only [Msg.question] at hq
  subst hq
  rcases hts : isTsig r with - | ts <;> rcases tsigStatus with - | e <;>
    simp only [finishReply, hts, setTsig, List.append_nil, List.append_assoc] <;>
    cases printFlag <;>
    by_cases hn : q0.name = "tc.miek.nl." <;>
    simp [hn]

/-- `finishReply_eq_q` specialized to a message given by its fields, so
it can be applied by unification without naming the question. -/
theorem finishReply_eq (pack : Msg → List Nat) (render : Msg → String)
    (printFlag : Bool) (now : Int) (r : Msg) (tsigStatus : Option String)
    (c1 : Nat) (logs0 : List String) (mid : Nat) (resp rd cp tr : Bool)
    (q0 : Question) (qrest : List Question) (ans ext2 : List RR) :
    finishReply pack render printFlag now r tsigStatus c1 logs0
      ⟨mid, resp, rd, cp, tr, q0 :: qrest, ans, ext2⟩ =
      let m1 : Msg := ⟨mid, resp, rd, cp, tr, q0 :: qrest, ans, ext2 ++
        (match isTsig r, tsigStatus with
         | some ts, none => [.tsig ⟨ts.hdr.name, typeTSIG, classANY, 0⟩ hmacMD5 300 now]
         | _, _ => [])⟩
      let logs : List String := (logs0 ++
        (match isTsig r, tsigStatus with
         | some _, some e => ["Status " ++ e]
         | _, _ => [])) ++ (if printFlag then [render m1] else [])
      ⟨c1, logs,
        if q0.name = "tc.miek.nl." then
          Action.truncatedWrite { m1 with truncated := true }
            ((pack { m1 with truncated := true }).take
              ((pack { m1 with truncated := true }).length / 2))
        else Action.reply m1⟩ :=
  finishReply_eq_q pack render printFlag now r tsigStatus c1 logs0
    ⟨mid, resp, rd, cp, tr, q0 :: qrest, ans, ext2⟩ q0 qrest rfl

/-- Shape of the single reply for a query of any type other than TXT,
AXFR and IXFR: address record in the answer section, TXT record in the
extra section (plus, possibly, a trailing TSIG signature record). -/
theorem reflect_default_sections (pack : Msg → List Nat) (render : Msg → String)
    (printFlag compressFlag : Bool) (now : Int) (trOutOk : Bool)
    (w : Session) (r : Msg) (tsigStatus : Option String) (counter : Nat)
    (q : Question) (rest : List Question)
    (hq : r.question = q :: rest)
    (hTXT : q.qtype ≠ typeTXT) (hAX : q.qtype ≠ typeAXFR) (hIX : q.qtype ≠ typeIXFR) :
    ∃ m, sentMsg (handleReflect pack render printFlag compressFlag now trOutOk
        w r tsigStatus counter).action = some m ∧
      m.answer = [addrRR w] ∧
      m.extra.filter RR.isTXTrec = [txtRR w] ∧
      m.extra.filter RR.isAddrRec = [] ∧
      (m.answer ++ m.extra).filter RR.isAddrRec = [addrRR w] := by
  obtain ⟨mid, resp, rd, cp, tr, qs, ans, ext⟩ := r
  simp only [Msg.question] at hq
  subst hq
  simp only [handleReflect, setReply, Msg.question]
  rw [if_neg hTXT, if_neg (by simp [hAX, hIX])]
  rw [finishReply_eq]
  rcases hts : isTsig ⟨mid, resp, rd, cp, tr, q :: rest, ans, ext⟩ with - | ts <;>
    by_cases hn : q.name = "tc.miek.nl." <;>
    rcases tsigStatus with - | e <;>
    simp [hts, hn, sentMsg, List.filter, txtRR,
      isAddrRec_addrRR, isTXTrec_addrRR, isAddrRec_txt, isTXTrec_txt,
      isAddrRec_tsig, isTXTrec_tsig]

/-- Shape of the single reply for a TXT query: TXT record in the answer
section, address record in the extra section (plus, possibly, a
trailing TSIG signature record). -/
theorem reflect_txt_sections (pack : Msg → List Nat) (render : Msg → String)
    (printFlag compressFlag : Bool) (now : Int) (trOutOk : Bool)
    (w : Session) (r : Msg) (tsigStatus : Option String) (counter : Nat)
    (q : Question) (rest : List Question)
    (hq : r.question = q :: rest) (hTXT : q.qtype = typeTXT) :
    ∃ m, sentMsg (handleReflect pack render printFlag compressFlag now trOutOk
        w r tsigStatus counter).action = some m ∧
      m.answer = [txtRR w] ∧
      m.extra.filter RR.isAddrRec = [addrRR w] ∧
      m.extra.filter RR.isTXTrec = [] := by
  obtain ⟨mid, resp, rd, cp, tr, qs, ans, ext⟩ := r
  simp only [Msg.question] at hq
  subst hq
  simp only [handleReflect, setReply, Msg.question]
  rw [if_pos hTXT]
  rw [finishReply_eq]
  rcases hts : isTsig ⟨mid, resp, rd, cp, tr, q :: rest, ans, ext⟩ with - | ts <;>
    by_cases hn : q.name = "tc.miek.nl." <;>
    rcases tsigStatus with - | e <;>
    simp [hts, hn, sentMsg, List.filter, txtRR,
      isAddrRec_addrRR, isTXTrec_addrRR, isAddrRec_txt, isTXTrec_txt,
      isAddrRec_tsig, isTXTrec_tsig]

/-- C1: for every reflection query of type A, AAAA, or any type other
than TXT/AXFR/IXFR, the reply's answer section is exactly one address
record whose family is decided by the session's remote address (A with
the session's four IPv4 bytes for an IPv4 remote address, AAAA with the
IPv6 address otherwise), with TTL 0; exactly one of A/AAAA appears in
the whole reply, never both and never neither; and the extra section
contains exactly one TXT record with text `Port: <port> (udp)` or
`Port: <port> (tcp)` matching the session's port and transport. -/
theorem c1_reflect_sections (pack : Msg → List Nat) (render : Msg → String)
    (printFlag compressFlag : Bool) (now : Int) (trOutOk : Bool)
    (w : Session) (r : Msg) (tsigStatus : Option String) (counter : Nat)
    (q : Question) (rest : List Question)
    (hq : r.question = q :: rest)
    (hTXT : q.qtype ≠ typeTXT) (hAX : q.qtype ≠ typeAXFR) (hIX : q.qtype ≠ typeIXFR) :
    ∃ m, sentMsg (handleReflect pack render printFlag compressFlag now trOutOk
        w r tsigStatus counter).action = some m ∧
      m.answer = [addrRR w] ∧
      m.extra.filter RR.isTXTrec = [txtRR w] ∧
      (m.answer ++ m.extra).filter RR.isAddrRec = [addrRR w] ∧
      (∀ b0 b1 b2 b3, w.ip = IP.v4 b0 b1 b2 b3 →
        addrRR w = RR.a ⟨dom, typeA, classINET, 0⟩ (IP.v4 b0 b1 b2 b3)) ∧
      (∀ bs, w.ip = IP.v6 bs →
        addrRR w = RR.aaaa ⟨dom, typeAAAA, classINET, 0⟩ (IP.v6 bs)) ∧
      (w.transport = Transport.udp →
        txtRR w = RR.txt ⟨dom, typeTXT, classINET, 0⟩
          ["Port: " ++ toString w.port ++ " (udp)"]) ∧
      (w.transport = Transport.tcp →
        txtRR w = RR.txt ⟨dom, typeTXT, classINET, 0⟩
          ["Port: " ++ toString w.port ++ " (tcp)"]) := by
  obtain ⟨m, h1, h2, h3, h4, h5⟩ :=
    reflect_default_sections pack render printFlag compressFlag now trOutOk
      w r tsigStatus counter q rest hq hTXT hAX hIX
  refine ⟨m, h1, h2, h3, h5, ?_, ?_, ?_, ?_⟩ <;> intros <;>
    simp [addrRR, txtRR, txtStr, *]

/-- C1 witness: an A query from an IPv4 UDP session at 203.0.113.7 port
40000. -/
theorem c1_reflect_sections_witness :
    (({ question := [⟨"whoami.miek.nl.", 1, 1⟩] } : Msg).question =
      (⟨"whoami.miek.nl.", 1, 1⟩ : Question) :: []) ∧
    ((⟨"whoami.miek.nl.", 1, 1⟩ : Question).qtype ≠ typeTXT) ∧
    ((⟨"whoami.miek.nl.", 1, 1⟩ : Question).qtype ≠ typeAXFR) ∧
    ((⟨"whoami.miek.nl.", 1, 1⟩ : Question).qtype ≠ typeIXFR) ∧
    (∃ m, sentMsg (handleReflect (fun _ => []) (fun _ => "") false false 0 true
        ⟨Transport.udp, IP.v4 203 0 113 7, 40000⟩
        { question := [⟨"whoami.miek.nl.", 1, 1⟩] } none 0).action = some m ∧
      m.answer = [addrRR ⟨Transport.udp, IP.v4 203 0 113 7, 40000⟩] ∧
      m.extra.filter RR.isTXTrec = [txtRR ⟨Transport.udp, IP.v4 203 0 113 7, 40000⟩] ∧
      (m.answer ++ m.extra).filter RR.isAddrRec =
        [addrRR ⟨Transport.udp, IP.v4 203 0 113 7, 40000⟩] ∧
      (∀ b0 b1 b2 b3,
        (⟨Transport.udp, IP.v4 203 0 113 7, 40000⟩ : Session).ip = IP.v4 b0 b1 b2 b3 →
        addrRR ⟨Transport.udp, IP.v4 203 0 113 7, 40000⟩ =
          RR.a ⟨dom, typeA, classINET, 0⟩ (IP.v4 b0 b1 b2 b3)) ∧
      (∀ bs,
        (⟨Transport.udp, IP.v4 203 0 113 7, 40000⟩ : Session).ip = IP.v6 bs →
        addrRR ⟨Transport.udp, IP.v4 203 0 113 7, 40000⟩ =
          RR.aaaa ⟨dom, typeAAAA, classINET, 0⟩ (IP.v6 bs)) ∧
      ((⟨Transport.udp, IP.v4 203 0 113 7, 40000⟩ : Session).transport = Transport.udp →
        txtRR ⟨Transport.udp, IP.v4 203 0 113 7, 40000⟩ =
          RR.txt ⟨dom, typeTXT, classINET, 0⟩ ["Port: " ++ toString (40000 : Nat) ++ " (udp)"]) ∧
      ((⟨Transport.udp, IP.v4 203 0 113 7, 40000⟩ : Session).transport = Transport.tcp →
        txtRR ⟨Transport.udp, IP.v4 203 0 113 7, 40000⟩ =
          RR.txt ⟨dom, typeTXT, classINET, 0⟩ ["Port: " ++ toString (40000 : Nat) ++ " (tcp)"])) :=
  ⟨rfl, by decide, by decide, by decide,
    c1_reflect_sections (fun _ => []) (fun _ => "") false false 0 true
      ⟨Transport.udp, IP.v4 203 0 113 7, 40000⟩
      { question := [⟨"whoami.miek.nl.", 1, 1⟩] } none 0
      ⟨"whoami.miek.nl.", 1, 1⟩ [] rfl (by decide) (by decide) (by decide)⟩

/-- C2: for every TXT reflection query, the reply carries the TXT record
in the answer section and the address record in the extra section — the
two sections swapped relative to the A/AAAA/unrecognized case — and the
records are identical to the ones an A-type query from the same session
produces. -/
theorem c2_txt_sections_swapped (pack : Msg → List Nat) (render : Msg → String)
    (printFlag compressFlag : Bool) (now : Int) (trOutOk : Bool)
    (w : Session) (r : Msg) (tsigStatus : Option String) (counter : Nat)
    (q : Question) (rest : List Question)
    (hq : r.question = q :: rest) (hTXT : q.qtype = typeTXT) :
    ∃ m mA, sentMsg (handleReflect pack render printFlag compressFlag now trOutOk
        w r tsigStatus counter).action = some m ∧
      sentMsg (handleReflect pack render printFlag compressFlag now trOutOk
        w { r with question := ⟨q.name, typeA, q.qclass⟩ :: rest } tsigStatus
        counter).action = some mA ∧
      m.answer = [txtRR w] ∧
      m.extra.filter RR.isAddrRec = [addrRR w] ∧
      m.extra.filter RR.isTXTrec = [] ∧
      mA.answer = m.extra.filter RR.isAddrRec ∧
      mA.extra.filter RR.isTXTrec = m.answer := by
  obtain ⟨m, h1, h2, h3, h4⟩ :=
    reflect_txt_sections pack render printFlag compressFlag now trOutOk
      w r tsigStatus counter q rest hq hTXT
  obtain ⟨mA, g1, g2, g3, g4, g5⟩ :=
    reflect_default_sections pack render printFlag compressFlag now trOutOk
      w { r with question := ⟨q.name, typeA, q.qclass⟩ :: rest } tsigStatus counter
      ⟨q.name, typeA, q.qclass⟩ rest rfl (show typeA ≠ typeTXT by decide)
      (show typeA ≠ typeAXFR by decide) (show typeA ≠ typeIXFR by decide)
  exact ⟨m, mA, h1, g1, h2, h3, h4, by rw [g2, h3], by rw [g3, h2]⟩

/-- C2 witness: a TXT query from an IPv4 UDP session at 203.0.113.7 port
40000. -/
theorem c2_txt_sections_swapped_witness :
    (({ question := [⟨"whoami.miek.nl.", 16, 1⟩] } : Msg).question =
      (⟨"whoami.miek.nl.", 16, 1⟩ : Question) :: []) ∧
    ((⟨"whoami.miek.nl.", 16, 1⟩ : Question).qtype = typeTXT) ∧
    (∃ m mA, sentMsg (handleReflect (fun _ => []) (fun _ => "") false false 0 true
        ⟨Transport.udp, IP.v4 203 0 113 7, 40000⟩
        { question := [⟨"whoami.miek.nl.", 16, 1⟩] } none 0).action = some m ∧
      sentMsg (handleReflect (fun _ => []) (fun _ => "") false false 0 true
        ⟨Transport.udp, IP.v4 203 0 113 7, 40000⟩
        { ({ question := [⟨"whoami.miek.nl.", 16, 1⟩] } : Msg) with
          question := (⟨(⟨"whoami.miek.nl.", 16, 1⟩ : Question).name, typeA,
            (⟨"whoami.miek.nl.", 16, 1⟩ : Question).qclass⟩ : Question) :: [] } none 0).action =
        some mA ∧
      m.answer = [txtRR ⟨Transport.udp, IP.v4 203 0 113 7, 40000⟩] ∧
      m.extra.filter RR.isAddrRec = [addrRR ⟨Transport.udp, IP.v4 203 0 113 7, 40000⟩] ∧
      m.extra.filter RR.isTXTrec = [] ∧
      mA.answer = m.extra.filter RR.isAddrRec ∧
      mA.extra.filter RR.isTXTrec = m.answer) :=
  ⟨rfl, by decide,
    c2_txt_sections_swapped (fun _ => []) (fun _ => "") false false 0 true
      ⟨Transport.udp, IP.v4 203 0 113 7, 40000⟩
      { question := [⟨"whoami.miek.nl.", 16, 1⟩] } none 0
      ⟨"whoami.miek.nl.", 16, 1⟩ [] rfl (by decide)⟩

/-- C3 counterexample: an AXFR query whose name is exactly
`tc.miek.nl.` takes the zone-transfer branch of `handleReflect`, so no
single reply exists at all: the truncated flag is never set and no
half-length write happens, contradicting the claim's quantification
over every reflection query with that name. -/
theorem c3_truncation_cex :
    (handleReflect (fun _ => [0, 1, 2, 3]) (fun _ => "") false false 0 true
        ⟨Transport.tcp, IP.v4 203 0 113 7, 40000⟩
        { question := [⟨"tc.miek.nl.", 252, 1⟩] } none 0).action =
      .transfer [soaRR, txtRR ⟨Transport.tcp, IP.v4 203 0 113 7, 40000⟩,
        addrRR ⟨Transport.tcp, IP.v4 203 0 113 7, 40000⟩, soaRR] ∧
    sentMsg (handleReflect (fun _ => [0, 1, 2, 3]) (fun _ => "") false false 0 true
        ⟨Transport.tcp, IP.v4 203 0 113 7, 40000⟩
        { question := [⟨"tc.miek.nl.", 252, 1⟩] } none 0).action = none := by
  decide

/-- C3 as amended: for every reflection query with resolved name
`tc.miek.nl.` whose type is not AXFR/IXFR, the reply's truncated flag is
set and exactly the first `floor(len/2)` bytes of the fully serialized
reply are transmitted; nothing further is sent. -/
theorem c3_truncation_half (pack : Msg → List Nat) (render : Msg → String)
    (printFlag compressFlag : Bool) (now : Int) (trOutOk : Bool)
    (w : Session) (r : Msg) (tsigStatus : Option String) (counter : Nat)
    (q : Question) (rest : List Question)
    (hq : r.question = q :: rest) (hname : q.name = "tc.miek.nl.")
    (hAX : q.qtype ≠ typeAXFR) (hIX : q.qtype ≠ typeIXFR) :
    ∃ m, (handleReflect pack render printFlag compressFlag now trOutOk
        w r tsigStatus counter).action =
      .truncatedWrite m ((pack m).take ((pack m).length / 2)) ∧
      m.truncated = true := by
  obtain ⟨mid, resp, rd, cp, tr, qs, ans, ext⟩ := r
  simp only [Msg.question] at hq
  subst hq
  by_cases hTXT : q.qtype = typeTXT <;>
    simp only [handleReflect, setReply, Msg.question]
  · rw [if_pos hTXT, finishReply_eq]
    simp only [hname, if_pos]
    exact ⟨_, rfl, rfl⟩
  · rw [if_neg hTXT, if_neg (by simp [hAX, hIX]),
      finishReply_eq]
    simp only [hname, if_pos]
    exact ⟨_, rfl, rfl⟩

/-- C3 witness: an A query for `tc.miek.nl.` with a five-byte packed
reply, of which the first two bytes are sent. -/
theorem c3_truncation_half_witness :
    (({ question := [⟨"tc.miek.nl.", 1, 1⟩] } : Msg).question =
      (⟨"tc.miek.nl.", 1, 1⟩ : Question) :: []) ∧
    ((⟨"tc.miek.nl.", 1, 1⟩ : Question).name = "tc.miek.nl.") ∧
    ((⟨"tc.miek.nl.", 1, 1⟩ : Question).qtype ≠ typeAXFR) ∧
    ((⟨"tc.miek.nl.", 1, 1⟩ : Question).qtype ≠ typeIXFR) ∧
    (∃ m, (handleReflect (fun _ => [0, 1, 2, 3, 4]) (fun _ => "") false false 0 true
        ⟨Transport.udp, IP.v4 203 0 113 7, 40000⟩
        { question := [⟨"tc.miek.nl.", 1, 1⟩] } none 0).action =
      .truncatedWrite m (((fun (_ : Msg) => [0, 1, 2, 3, 4]) m).take
        (((fun (_ : Msg) => [0, 1, 2, 3, 4]) m).length / 2)) ∧
      m.truncated = true) :=
  ⟨rfl, rfl, by decide, by decide,
    c3_truncation_half (fun _ => [0, 1, 2, 3, 4]) (fun _ => "") false false 0 true
      ⟨Transport.udp, IP.v4 203 0 113 7, 40000⟩
      { question := [⟨"tc.miek.nl.", 1, 1⟩] } none 0
      ⟨"tc.miek.nl.", 1, 1⟩ [] rfl rfl (by decide) (by decide)⟩

/-- C4: an AXFR or IXFR query over stream transport makes the
zone-transfer path send a single envelope whose records are, in order,
SOA, TXT self-description, address record, and the identical SOA again
— exactly two interior records between the two SOA markers — and no
normal single reply is returned. -/
theorem c4_axfr_envelope (pack : Msg → List Nat) (render : Msg → String)
    (printFlag compressFlag : Bool) (now : Int)
    (w : Session) (r : Msg) (tsigStatus : Option String) (counter : Nat)
    (q : Question) (rest : List Question)
    (hq : r.question = q :: rest) (hstream : w.transport = Transport.tcp)
    (hax : q.qtype = typeAXFR ∨ q.qtype = typeIXFR) :
    (handleReflect pack render printFlag compressFlag now true
        w r tsigStatus counter).action =
      .transfer [soaRR, txtRR w, addrRR w, soaRR] ∧
    sentMsg (handleReflect pack render printFlag compressFlag now true
        w r tsigStatus counter).action = none ∧
    [soaRR, txtRR w, addrRR w, soaRR].head? = some soaRR ∧
    [soaRR, txtRR w, addrRR w, soaRR].getLast? = some soaRR := by
  obtain ⟨mid, resp, rd, cp, tr, qs, ans, ext⟩ := r
  simp only [Msg.question] at hq
  subst hq
  have hTXT : q.qtype ≠ typeTXT := by
    rcases hax with h | h <;> simp [h, typeAXFR, typeIXFR, typeTXT]
  simp only [handleReflect, setReply, Msg.question]
  rw [if_neg hTXT, if_pos hax]
  exact ⟨rfl, rfl, rfl, rfl⟩

/-- C4 witness: an AXFR query from an IPv4 TCP session. -/
theorem c4_axfr_envelope_witness :
    (({ question := [⟨"whoami.miek.nl.", 252, 1⟩] } : Msg).question =
      (⟨"whoami.miek.nl.", 252, 1⟩ : Question) :: []) ∧
    ((⟨Transport.tcp, IP.v4 203 0 113 7, 40000⟩ : Session).transport = Transport.tcp) ∧
    ((⟨"whoami.miek.nl.", 252, 1⟩ : Question).qtype = typeAXFR ∨
      (⟨"whoami.miek.nl.", 252, 1⟩ : Question).qtype = typeIXFR) ∧
    ((handleReflect (fun _ => []) (fun _ => "") false false 0 true
        ⟨Transport.tcp, IP.v4 203 0 113 7, 40000⟩
        { question := [⟨"whoami.miek.nl.", 252, 1⟩] } none 0).action =
      .transfer [soaRR, txtRR ⟨Transport.tcp, IP.v4 203 0 113 7, 40000⟩,
        addrRR ⟨Transport.tcp, IP.v4 203 0 113 7, 40000⟩, soaRR] ∧
    sentMsg (handleReflect (fun _ => []) (fun _ => "") false false 0 true
        ⟨Transport.tcp, IP.v4 203 0 113 7, 40000⟩
        { question := [⟨"whoami.miek.nl.", 252, 1⟩] } none 0).action = none ∧
    [soaRR, txtRR ⟨Transport.tcp, IP.v4 203 0 113 7, 40000⟩,
      addrRR ⟨Transport.tcp, IP.v4 203 0 113 7, 40000⟩, soaRR].head? = some soaRR ∧
    [soaRR, txtRR ⟨Transport.tcp, IP.v4 203 0 113 7, 40000⟩,
      addrRR ⟨Transport.tcp, IP.v4 203 0 113 7, 40000⟩, soaRR].getLast? = some soaRR) :=
  ⟨rfl, rfl, by decide,
    c4_axfr_envelope (fun _ => []) (fun _ => "") false false 0
      ⟨Transport.tcp, IP.v4 203 0 113 7, 40000⟩
      { question := [⟨"whoami.miek.nl.", 252, 1⟩] } none 0
      ⟨"whoami.miek.nl.", 252, 1⟩ [] rfl rfl (by decide)⟩

/-- C5 counterexample: a query carrying no TSIG record gets an unsigned
reply even when verification reports no failure — `handleReflect` signs
only when the inbound message itself carries a TSIG record, and the
configured key (the server's `TsigSecret`, set up in `serve`) never
reaches the handler's signing decision, contradicting the claim that a
configured key alone makes every outbound reply signed. -/
theorem c5_signing_cex :
    (sentMsg (handleReflect (fun _ => []) (fun _ => "") false false 99 true
        ⟨Transport.udp, IP.v4 203 0 113 7, 40000⟩
        { question := [⟨"whoami.miek.nl.", 1, 1⟩] } none 0).action).map
      (fun m => m.extra.filter RR.isTSIGrec) = some [] := by
  decide

/-- C5 as amended: the outbound reply is signed — with algorithm
HmacMD5, fudge 300 and the current timestamp — exactly when the inbound
message carries a TSIG record and its verification succeeded; with no
inbound TSIG record, or on verification failure, the reply is unsigned
regardless of any configured key. -/
theorem c5_signing_conditions (pack : Msg → List Nat) (render : Msg → String)
    (printFlag compressFlag : Bool) (now : Int) (trOutOk : Bool)
    (w : Session) (r : Msg) (tsigStatus : Option String) (counter : Nat)
    (q : Question) (rest : List Question)
    (hq : r.question = q :: rest)
    (hAX : q.qtype ≠ typeAXFR) (hIX : q.qtype ≠ typeIXFR) :
    (∀ ts, isTsig r = some ts → tsigStatus = none →
      ∃ m, sentMsg (handleReflect pack render printFlag compressFlag now trOutOk
          w r tsigStatus counter).action = some m ∧
        m.extra.getLast? =
          some (.tsig ⟨ts.hdr.name, typeTSIG, classANY, 0⟩ hmacMD5 300 now)) ∧
    (isTsig r = none →
      ∃ m, sentMsg (handleReflect pack render printFlag compressFlag now trOutOk
          w r tsigStatus counter).action = some m ∧
        m.extra.filter RR.isTSIGrec = []) ∧
    (∀ e, tsigStatus = some e →
      ∃ m, sentMsg (handleReflect pack render printFlag compressFlag now trOutOk
          w r tsigStatus counter).action = some m ∧
        m.extra.filter RR.isTSIGrec = []) := by
  obtain ⟨mid, resp, rd, cp, tr, qs, ans, ext⟩ := r
  simp only [Msg.question] at hq
  subst hq
  by_cases hTXT : q.qtype = typeTXT <;>
    simp only [handleReflect, setReply, Msg.question]
  · rw [if_pos hTXT, finishReply_eq]
    rcases hts : isTsig ⟨mid, resp, rd, cp, tr, q :: rest, ans, ext⟩ with - | ts' <;>
      rcases tsigStatus with - | e <;>
      by_cases hn : q.name = "tc.miek.nl." <;>
      refine ⟨?_, ?_, ?_⟩ <;> intros <;>
      simp_all [sentMsg, List.filter, txtRR,
        isTSIGrec_addrRR, isTSIGrec_txt, isTSIGrec_tsig]
  · rw [if_neg hTXT, if_neg (by simp [hAX, hIX]),
      finishReply_eq]
    rcases hts : isTsig ⟨mid, resp, rd, cp, tr, q :: rest, ans, ext⟩ with - | ts' <;>
      rcases tsigStatus with - | e <;>
      by_cases hn : q.name = "tc.miek.nl." <;>
      refine ⟨?_, ?_, ?_⟩ <;> intros <;>
      simp_all [sentMsg, List.filter, txtRR,
        isTSIGrec_addrRR, isTSIGrec_txt, isTSIGrec_tsig]

/-- C5 witness: an A query carrying a TSIG record named `mykey.`, with
verification success, signed at time 99. -/
theorem c5_signing_conditions_witness :
    (({ question := [⟨"whoami.miek.nl.", 1, 1⟩],
        extra := [.tsig ⟨"mykey.", 250, 255, 0⟩ "hmac-md5.sig-alg.reg.int." 300 12345] } :
      Msg).question = (⟨"whoami.miek.nl.", 1, 1⟩ : Question) :: []) ∧
    ((⟨"whoami.miek.nl.", 1, 1⟩ : Question).qtype ≠ typeAXFR) ∧
    ((⟨"whoami.miek.nl.", 1, 1⟩ : Question).qtype ≠ typeIXFR) ∧
    ((∀ ts,
      isTsig
        ({ question := [⟨"whoami.miek.nl.", 1, 1⟩],
           extra := [.tsig ⟨"mykey.", 250, 255, 0⟩ "hmac-md5.sig-alg.reg.int." 300 12345] } :
          Msg) = some ts → (none : Option String) = none →
      ∃ m, sentMsg (handleReflect (fun _ => []) (fun _ => "") false false 99 true
          ⟨Transport.udp, IP.v4 203 0 113 7, 40000⟩
          { question := [⟨"whoami.miek.nl.", 1, 1⟩],
            extra := [.tsig ⟨"mykey.", 250, 255, 0⟩ "hmac-md5.sig-alg.reg.int." 300 12345] }
          none 0).action = some m ∧
        m.extra.getLast? =
          some (.tsig ⟨ts.hdr.name, typeTSIG, classANY, 0⟩ hmacMD5 300 99)) ∧
    (isTsig
        ({ question := [⟨"whoami.miek.nl.", 1, 1⟩],
           extra := [.tsig ⟨"mykey.", 250, 255, 0⟩ "hmac-md5.sig-alg.reg.int." 300 12345] } :
          Msg) = none →
      ∃ m, sentMsg (handleReflect (fun _ => []) (fun _ => "") false false 99 true
          ⟨Transport.udp, IP.v4 203 0 113 7, 40000⟩
          { question := [⟨"whoami.miek.nl.", 1, 1⟩],
            extra := [.tsig ⟨"mykey.", 250, 255, 0⟩ "hmac-md5.sig-alg.reg.int." 300 12345] }
          none 0).action = some m ∧
        m.extra.filter RR.isTSIGrec = []) ∧
    (∀ e, (none : Option String) = some e →
      ∃ m, sentMsg (handleReflect (fun _ => []) (fun _ => "") false false 99 true
          ⟨Transport.udp, IP.v4 203 0 113 7, 40000⟩
          { question := [⟨"whoami.miek.nl.", 1, 1⟩],
            extra := [.tsig ⟨"mykey.", 250, 255, 0⟩ "hmac-md5.sig-alg.reg.int." 300 12345] }
          none 0).action = some m ∧
        m.extra.filter RR.isTSIGrec = [])) :=
  ⟨rfl, by decide, by decide,
    c5_signing_conditions (fun _ => []) (fun _ => "") false false 99 true
      ⟨Transport.udp, IP.v4 203 0 113 7, 40000⟩
      { question := [⟨"whoami.miek.nl.", 1, 1⟩],
        extra := [.tsig ⟨"mykey.", 250, 255, 0⟩ "hmac-md5.sig-alg.reg.int." 300 12345] }
      none 0 ⟨"whoami.miek.nl.", 1, 1⟩ [] rfl (by decide) (by decide)⟩

/-- C6 counterexample: an A query whose name has no row in the store
(the miss case) is not answered with an ANY record at all —
`lookUpNameInDb` returns the zero values `(0, "")` on a miss, and
`handleSqlite`'s A branch turns the empty rdata into an A record with
address 0.0.0.0 and TTL 0. -/
theorem c6_miss_cex :
    (handleSqlite [] { question := [⟨"foo.baz.miek.nl.", 1, 1⟩] }).map
        (fun m => m.answer.filter RR.isANYrec) = some [] ∧
    (handleSqlite [] { question := [⟨"foo.baz.miek.nl.", 1, 1⟩] }).map
        (fun m => m.answer) =
      some [.a ⟨"foo.baz.miek.nl.", typeA, classINET, 0⟩ (.v4 0 0 0 0)] := by
  decide

/-- C6 as amended: for every Record-Store query whose type is not A, the
handler answers with an empty ANY record of TTL 60 without consulting
the store (covering all misses for non-A types); an A-type miss is not
signalled by the lookup — it yields TTL 0 and empty rdata, which the
handler parses into an A record with address 0.0.0.0 and TTL 0. -/
theorem c6_lookup_answers (db : List DbRow) (r : Msg)
    (q : Question) (rest : List Question)
    (hq : r.question = q :: rest) :
    (q.qtype ≠ typeA →
      ∃ m, handleSqlite db r = some m ∧
        m.answer = [.any ⟨q.name, typeANY, classINET, 60⟩]) ∧
    (q.qtype = typeA →
      db.filter (fun row => row.name = q.name ∧ row.rrtype = "A") = [] →
      ∃ m, handleSqlite db r = some m ∧
        m.answer = [.a ⟨q.name, typeA, classINET, 0⟩ (.v4 0 0 0 0)]) := by
  obtain ⟨mid, resp, rd, cp, tr, qs, ans, ext⟩ := r
  simp only [Msg.question] at hq
  subst hq
  constructor
  · intro hA
    simp [handleSqlite, setReply, hA]
  · intro hA hmiss
    simp only [Bool.decide_and] at hmiss
    have hlook : lookUpNameInDb db q.name "A" = (0, "") := by
      simp [lookUpNameInDb, hmiss]
    have hpo : parseOctets "" = some (0, 0, 0, 0) := by decide
    simp only [handleSqlite, setReply, hA, hlook, hpo, if_pos]
    exact ⟨_, rfl, rfl⟩

/-- C6 witness: a TXT query (non-A branch) and an A query with an empty
store (miss branch) for `foo.baz.miek.nl.`. -/
theorem c6_lookup_answers_witness :
    (({ question := [⟨"foo.baz.miek.nl.", 16, 1⟩] } : Msg).question =
      (⟨"foo.baz.miek.nl.", 16, 1⟩ : Question) :: []) ∧
    (((⟨"foo.baz.miek.nl.", 16, 1⟩ : Question).qtype ≠ typeA →
      ∃ m, handleSqlite [] { question := [⟨"foo.baz.miek.nl.", 16, 1⟩] } = some m ∧
        m.answer = [.any ⟨(⟨"foo.baz.miek.nl.", 16, 1⟩ : Question).name,
          typeANY, classINET, 60⟩]) ∧
    ((⟨"foo.baz.miek.nl.", 16, 1⟩ : Question).qtype = typeA →
      List.filter (fun row => decide (row.name =
          (⟨"foo.baz.miek.nl.", 16, 1⟩ : Question).name ∧ row.rrtype = "A"))
        ([] : List DbRow) = [] →
      ∃ m, handleSqlite [] { question := [⟨"foo.baz.miek.nl.", 16, 1⟩] } = some m ∧
        m.answer = [.a ⟨(⟨"foo.baz.miek.nl.", 16, 1⟩ : Question).name,
          typeA, classINET, 0⟩ (.v4 0 0 0 0)])) ∧
    ((⟨"foo.baz.miek.nl.", 16, 1⟩ : Question).qtype ≠ typeA) :=
  ⟨rfl,
    c6_lookup_answers [] { question := [⟨"foo.baz.miek.nl.", 16, 1⟩] }
      ⟨"foo.baz.miek.nl.", 16, 1⟩ [] rfl,
    by decide⟩

/-- C7 counterexample: an AXFR query arriving over the datagram (UDP)
transport still enters the zone-transfer streaming path —
`handleReflect` selects the branch on the query type alone and never
inspects the session's transport. -/
theorem c7_udp_axfr_cex :
    (handleReflect (fun _ => []) (fun _ => "") false false 0 true
        ⟨Transport.udp, IP.v4 203 0 113 7, 40000⟩
        { question := [⟨"whoami.miek.nl.", 252, 1⟩] } none 0).action =
      .transfer [soaRR, .txt ⟨dom, typeTXT, classINET, 0⟩ ["Port: 40000 (udp)"],
        .a ⟨dom, typeA, classINET, 0⟩ (.v4 203 0 113 7), soaRR] := by
  decide

/-- C7 as amended: `handleReflect` enters the zone-transfer path for
every AXFR/IXFR query regardless of the session's transport — the
branch is selected by query type alone, so a datagram session takes it
exactly as a stream session does, and no normal single reply is
returned. -/
theorem c7_xfr_any_transport (pack : Msg → List Nat) (render : Msg → String)
    (printFlag compressFlag : Bool) (now : Int) (trOutOk : Bool)
    (w : Session) (r : Msg) (tsigStatus : Option String) (counter : Nat)
    (q : Question) (rest : List Question)
    (hq : r.question = q :: rest)
    (hax : q.qtype = typeAXFR ∨ q.qtype = typeIXFR) :
    (trOutOk = true →
      (handleReflect pack render printFlag compressFlag now trOutOk
        w r tsigStatus counter).action =
        .transfer [soaRR, txtRR w, addrRR w, soaRR]) ∧
    (trOutOk = false →
      (handleReflect pack render printFlag compressFlag now trOutOk
        w r tsigStatus counter).action = .transferAbort) ∧
    sentMsg (handleReflect pack render printFlag compressFlag now trOutOk
      w r tsigStatus counter).action = none := by
  obtain ⟨mid, resp, rd, cp, tr, qs, ans, ext⟩ := r
  simp only [Msg.question] at hq
  subst hq
  have hTXT : q.qtype ≠ typeTXT := by
    rcases hax with h | h <;> simp [h, typeAXFR, typeIXFR, typeTXT]
  simp only [handleReflect, setReply, Msg.question]
  rw [if_neg hTXT, if_pos hax]
  cases trOutOk <;> exact ⟨by simp, by simp, rfl⟩

/-- C7 witness: an AXFR query from an IPv4 UDP (datagram) session. -/
theorem c7_xfr_any_transport_witness :
    (({ question := [⟨"whoami.miek.nl.", 252, 1⟩] } : Msg).question =
      (⟨"whoami.miek.nl.", 252, 1⟩ : Question) :: []) ∧
    ((⟨"whoami.miek.nl.", 252, 1⟩ : Question).qtype = typeAXFR ∨
      (⟨"whoami.miek.nl.", 252, 1⟩ : Question).qtype = typeIXFR) ∧
    ((true = true →
      (handleReflect (fun _ => []) (fun _ => "") false false 0 true
        ⟨Transport.udp, IP.v4 203 0 113 7, 40000⟩
        { question := [⟨"whoami.miek.nl.", 252, 1⟩] } none 0).action =
        .transfer [soaRR, txtRR ⟨Transport.udp, IP.v4 203 0 113 7, 40000⟩,
          addrRR ⟨Transport.udp, IP.v4 203 0 113 7, 40000⟩, soaRR]) ∧
    (true = false →
      (handleReflect (fun _ => []) (fun _ => "") false false 0 true
        ⟨Transport.udp, IP.v4 203 0 113 7, 40000⟩
        { question := [⟨"whoami.miek.nl.", 252, 1⟩] } none 0).action = .transferAbort) ∧
    sentMsg (handleReflect (fun _ => []) (fun _ => "") false false 0 true
      ⟨Transport.udp, IP.v4 203 0 113 7, 40000⟩
      { question := [⟨"whoami.miek.nl.", 252, 1⟩] } none 0).action = none) :=
  ⟨rfl, by decide,
    c7_xfr_any_transport (fun _ => []) (fun _ => "") false false 0 true
      ⟨Transport.udp, IP.v4 203 0 113 7, 40000⟩
      { question := [⟨"whoami.miek.nl.", 252, 1⟩] } none 0
      ⟨"whoami.miek.nl.", 252, 1⟩ [] rfl (by decide)⟩

/-- A TSIG failure log line is never the progress line: the former
starts with `Status`, the latter with `Served`. -/
theorem status_ne_progressLine (e : String) (n : Nat) :
    "Status " ++ e ≠ progressLine n := by
  intro h
  have h1 : ("Status " ++ e).data.get? 1 = (progressLine n).data.get? 1 := by rw [h]
  have h2 : ("Status " ++ e).data.get? 1 = some 't' := rfl
  have h3 : (progressLine n).data.get? 1 = some 'e' := rfl
  rw [h2, h3] at h1
  exact absurd (Option.some.inj h1) (by decide)

/-- Simp form of `status_ne_progressLine`. -/
theorem progress_ne_status (e : String) (n : Nat) :
    (progressLine n = "Status " ++ e) = False :=
  eq_false (fun h => status_ne_progressLine e n h.symm)

/-- Dropping the inbound TSIG record and the failure status does not
change the wire action: on verification failure the reply is the one an
unsigned request would have received. -/
theorem finishReply_drop_tsig (pack : Msg → List Nat) (render : Msg → String)
    (printFlag : Bool) (now : Int) (r r' : Msg) (e : String)
    (c1 : Nat) (logs0 : List String) (m : Msg) (ts : RR)
    (hts : isTsig r = some ts) (hts' : isTsig r' = none) :
    (finishReply pack render printFlag now r (some e) c1 logs0 m).action =
      (finishReply pack render printFlag now r' none c1 logs0 m).action := by
  simp only [finishReply, hts, hts']
  rcases hmq : m.question with - | ⟨q0, qrest⟩ <;> simp only [hmq]
  by_cases hn : q0.name = "tc.miek.nl." <;> simp [hn]

/-- On verification failure, the `Status` line is logged. -/
theorem finishReply_failure_in_logs (pack : Msg → List Nat) (render : Msg → String)
    (printFlag : Bool) (now : Int) (r : Msg) (e : String)
    (c1 : Nat) (logs0 : List String) (m : Msg) (ts : RR)
    (hts : isTsig r = some ts) :
    ("Status " ++ e) ∈ (finishReply pack render printFlag now r (some e) c1 logs0 m).logs := by
  simp only [finishReply, hts]
  rcases hmq : m.question with - | ⟨q0, qrest⟩ <;> simp only [hmq]
  · cases printFlag <;> simp
  · split <;> cases printFlag <;> simp

/-- On verification failure, a single reply is still sent and its extra
section is exactly the one built before the TSIG step. -/
theorem finishReply_failure_sent (pack : Msg → List Nat) (render : Msg → String)
    (printFlag : Bool) (now : Int) (r : Msg) (e : String)
    (c1 : Nat) (logs0 : List String) (m : Msg)
    (q0 : Question) (qrest : List Question) (hmq : m.question = q0 :: qrest)
    (ts : RR) (hts : isTsig r = some ts) :
    ∃ mm, sentMsg (finishReply pack render printFlag now r (some e) c1 logs0 m).action =
        some mm ∧ mm.extra = m.extra := by
  rw [finishReply_eq_q pack render printFlag now r (some e) c1 logs0 m q0 qrest hmq]
  simp only [hts]
  by_cases hn : q0.name = "tc.miek.nl." <;> simp [hn, sentMsg]

/-- C8: an inbound message carrying a TSIG record whose verification
fails still gets its reply built and sent, unsigned, with the same wire
action as if the message had carried no TSIG record at all; the failure
shows up only in the logs via the `Status` line. -/
theorem c8_tsig_failure_nonfatal (pack : Msg → List Nat) (render : Msg → String)
    (printFlag compressFlag : Bool) (now : Int) (trOutOk : Bool)
    (w : Session) (r : Msg) (counter : Nat)
    (q : Question) (rest : List Question) (ts : RR) (e : String)
    (hq : r.question = q :: rest)
    (hAX : q.qtype ≠ typeAXFR) (hIX : q.qtype ≠ typeIXFR)
    (hts : isTsig r = some ts) :
    ((handleReflect pack render printFlag compressFlag now trOutOk
        w r (some e) counter).action =
      (handleReflect pack render printFlag compressFlag now trOutOk
        w { r with extra := [] } none counter).action) ∧
    ("Status " ++ e) ∈ (handleReflect pack render printFlag compressFlag now trOutOk
      w r (some e) counter).logs ∧
    (∃ m, sentMsg (handleReflect pack render printFlag compressFlag now trOutOk
        w r (some e) counter).action = some m ∧
      m.extra.filter RR.isTSIGrec = []) := by
  obtain ⟨mid, resp, rd, cp, tr, qs, ans, ext⟩ := r
  simp only [Msg.question] at hq
  subst hq
  have hts2 : isTsig (⟨mid, resp, rd, cp, tr, q :: rest, ans, []⟩ : Msg) = none := rfl
  have hxfr : ¬(q.qtype = typeAXFR ∨ q.qtype = typeIXFR) := by simp [hAX, hIX]
  by_cases hTXT : q.qtype = typeTXT
  · have eL : handleReflect pack render printFlag compressFlag now trOutOk w
        ⟨mid, resp, rd, cp, tr, q :: rest, ans, ext⟩ (some e) counter =
        finishReply pack render printFlag now
          ⟨mid, resp, rd, cp, tr, q :: rest, ans, ext⟩ (some e) (counter + 1)
          (if (counter + 1) % 1000 = 0 then [progressLine (counter + 1)] else [])
          { id := mid, response := true, recursionDesired := rd,
            compress := compressFlag, truncated := false, question := [q],
            answer := [txtRR w], extra := [addrRR w] } := by
      simp only [handleReflect, setReply, Msg.question]
      rw [if_pos hTXT]
      rfl
    have eR : handleReflect pack render printFlag compressFlag now trOutOk w
        ⟨mid, resp, rd, cp, tr, q :: rest, ans, []⟩ none counter =
        finishReply pack render printFlag now
          ⟨mid, resp, rd, cp, tr, q :: rest, ans, []⟩ none (counter + 1)
          (if (counter + 1) % 1000 = 0 then [progressLine (counter + 1)] else [])
          { id := mid, response := true, recursionDesired := rd,
            compress := compressFlag, truncated := false, question := [q],
            answer := [txtRR w], extra := [addrRR w] } := by
      simp only [handleReflect, setReply, Msg.question]
      rw [if_pos hTXT]
      rfl
    rw [eL, eR]
    refine ⟨finishReply_drop_tsig _ _ _ _ _ _ _ _ _ _ ts hts hts2,
      finishReply_failure_in_logs _ _ _ _ _ _ _ _ _ ts hts, ?_⟩
    obtain ⟨mm, h1, h2⟩ :=
      finishReply_failure_sent pack render printFlag now
        ⟨mid, resp, rd, cp, tr, q :: rest, ans, ext⟩ e (counter + 1)
        (if (counter + 1) % 1000 = 0 then [progressLine (counter + 1)] else [])
        { id := mid, response := true, recursionDesired := rd,
          compress := compressFlag, truncated := false, question := [q],
          answer := [txtRR w], extra := [addrRR w] } q [] rfl ts hts
    exact ⟨mm, h1, by rw [h2]; simp [List.filter, isTSIGrec_addrRR]⟩
  · have eL : handleReflect pack render printFlag compressFlag now trOutOk w
        ⟨mid, resp, rd, cp, tr, q :: rest, ans, ext⟩ (some e) counter =
        finishReply pack render printFlag now
          ⟨mid, resp, rd, cp, tr, q :: rest, ans, ext⟩ (some e) (counter + 1)
          (if (counter + 1) % 1000 = 0 then [progressLine (counter + 1)] else [])
          { id := mid, response := true, recursionDesired := rd,
            compress := compressFlag, truncated := false, question := [q],
            answer := [addrRR w], extra := [txtRR w] } := by
      simp only [handleReflect, setReply, Msg.question]
      rw [if_neg hTXT, if_neg hxfr]
      rfl
    have eR : handleReflect pack render printFlag compressFlag now trOutOk w
        ⟨mid, resp, rd, cp, tr, q :: rest, ans, []⟩ none counter =
        finishReply pack render printFlag now
          ⟨mid, resp, rd, cp, tr, q :: rest, ans, []⟩ none (counter + 1)
          (if (counter + 1) % 1000 = 0 then [progressLine (counter + 1)] else [])
          { id := mid, response := true, recursionDesired := rd,
            compress := compressFlag, truncated := false, question := [q],
            answer := [addrRR w], extra := [txtRR w] } := by
      simp only [handleReflect, setReply, Msg.question]
      rw [if_neg hTXT, if_neg hxfr]
      rfl
    rw [eL, eR]
    refine ⟨finishReply_drop_tsig _ _ _ _ _ _ _ _ _ _ ts hts hts2,
      finishReply_failure_in_logs _ _ _ _ _ _ _ _ _ ts hts, ?_⟩
    obtain ⟨mm, h1, h2⟩ :=
      finishReply_failure_sent pack render printFlag now
        ⟨mid, resp, rd, cp, tr, q :: rest, ans, ext⟩ e (counter + 1)
        (if (counter + 1) % 1000 = 0 then [progressLine (counter + 1)] else [])
        { id := mid, response := true, recursionDesired := rd,
          compress := compressFlag, truncated := false, question := [q],
          answer := [addrRR w], extra := [txtRR w] } q [] rfl ts hts
    exact ⟨mm, h1, by rw [h2]; simp [List.filter, txtRR, isTSIGrec_txt]⟩

/-- C8 witness: an A query carrying a TSIG record whose verification
failed with status string `bad`. -/
theorem c8_tsig_failure_nonfatal_witness :
    (({ question := [⟨"whoami.miek.nl.", 1, 1⟩],
        extra := [.tsig ⟨"mykey.", 250, 255, 0⟩ "hmac-md5.sig-alg.reg.int." 300 12345] } :
      Msg).question = (⟨"whoami.miek.nl.", 1, 1⟩ : Question) :: []) ∧
    ((⟨"whoami.miek.nl.", 1, 1⟩ : Question).qtype ≠ typeAXFR) ∧
    ((⟨"whoami.miek.nl.", 1, 1⟩ : Question).qtype ≠ typeIXFR) ∧
    (isTsig
        ({ question := [⟨"whoami.miek.nl.", 1, 1⟩],
           extra := [.tsig ⟨"mykey.", 250, 255, 0⟩ "hmac-md5.sig-alg.reg.int." 300 12345] } :
          Msg) =
      some (.tsig ⟨"mykey.", 250, 255, 0⟩ "hmac-md5.sig-alg.reg.int." 300 12345)) ∧
    (((handleReflect (fun _ => []) (fun _ => "") false false 99 true
        ⟨Transport.udp, IP.v4 203 0 113 7, 40000⟩
        { question := [⟨"whoami.miek.nl.", 1, 1⟩],
          extra := [.tsig ⟨"mykey.", 250, 255, 0⟩ "hmac-md5.sig-alg.reg.int." 300 12345] }
        (some "bad") 0).action =
      (handleReflect (fun _ => []) (fun _ => "") false false 99 true
        ⟨Transport.udp, IP.v4 203 0 113 7, 40000⟩
        { ({ question := [⟨"whoami.miek.nl.", 1, 1⟩],
             extra := [.tsig ⟨"mykey.", 250, 255, 0⟩ "hmac-md5.sig-alg.reg.int." 300 12345] } :
            Msg) with extra := [] } none 0).action) ∧
    ("Status " ++ "bad") ∈ (handleReflect (fun _ => []) (fun _ => "") false false 99 true
      ⟨Transport.udp, IP.v4 203 0 113 7, 40000⟩
      { question := [⟨"whoami.miek.nl.", 1, 1⟩],
        extra := [.tsig ⟨"mykey.", 250, 255, 0⟩ "hmac-md5.sig-alg.reg.int." 300 12345] }
      (some "bad") 0).logs ∧
    (∃ m, sentMsg (handleReflect (fun _ => []) (fun _ => "") false false 99 true
        ⟨Transport.udp, IP.v4 203 0 113 7, 40000⟩
        { question := [⟨"whoami.miek.nl.", 1, 1⟩],
          extra := [.tsig ⟨"mykey.", 250, 255, 0⟩ "hmac-md5.sig-alg.reg.int." 300 12345] }
        (some "bad") 0).action = some m ∧
      m.extra.filter RR.isTSIGrec = [])) :=
  ⟨rfl, by decide, by decide, rfl,
    c8_tsig_failure_nonfatal (fun _ => []) (fun _ => "") false false 99 true
      ⟨Transport.udp, IP.v4 203 0 113 7, 40000⟩
      { question := [⟨"whoami.miek.nl.", 1, 1⟩],
        extra := [.tsig ⟨"mykey.", 250, 255, 0⟩ "hmac-md5.sig-alg.reg.int." 300 12345] }
      0 ⟨"whoami.miek.nl.", 1, 1⟩ []
      (.tsig ⟨"mykey.", 250, 255, 0⟩ "hmac-md5.sig-alg.reg.int." 300 12345) "bad"
      rfl (by decide) (by decide) rfl⟩

/-- C9 counterexample: with the plain non-atomic read-modify-write of
`reflectHandled += 1`, the interleaving in which both listener threads
load the counter before either stores loses one of the two updates:
both threads run their increment to completion (program counter 2), yet
the shared counter ends at 1, not 2. -/
theorem c9_lost_update_cex :
    runRace [true, false, true, false] ⟨0, ⟨0, 0⟩, ⟨0, 0⟩⟩ = ⟨1, ⟨2, 0⟩, ⟨2, 0⟩⟩ ∧
    (runRace [true, false, true, false] ⟨0, ⟨0, 0⟩, ⟨0, 0⟩⟩).shared ≠ 2 := by
  decide

/-- C9 as amended: each `handleReflect` invocation, run to completion in
isolation, increases the counter by exactly one, and the progress
notification appears in the logs exactly on every 1000th increment
(stated with reply printing off, so that a printed reply cannot be
mistaken for the progress line); the no-lost-updates part of the claim
fails because the increment is non-atomic. -/
theorem c9_counter_sequential (pack : Msg → List Nat) (render : Msg → String)
    (printFlag compressFlag : Bool) (now : Int) (trOutOk : Bool)
    (w : Session) (r : Msg) (tsigStatus : Option String) (counter : Nat) :
    ((handleReflect pack render printFlag compressFlag now trOutOk
        w r tsigStatus counter).counter = counter + 1) ∧
    (printFlag = false →
      ((counter + 1) % 1000 = 0 ↔
        progressLine (counter + 1) ∈
          (handleReflect pack render printFlag compressFlag now trOutOk
            w r tsigStatus counter).logs)) := by
  obtain ⟨mid, resp, rd, cp, tr, qs, ans, ext⟩ := r
  cases qs with
  | nil =>
    constructor
    · rfl
    · intro hpf
      subst hpf
      simp only [handleReflect]
      by_cases hP : (counter + 1) % 1000 = 0 <;> simp [hP]
  | cons q rest =>
    by_cases hTXT : q.qtype = typeTXT
    · constructor
      · simp only [handleReflect, setReply, Msg.question]
        rw [if_pos hTXT, finishReply_eq]
      · intro hpf
        subst hpf
        simp only [handleReflect, setReply, Msg.question]
        rw [if_pos hTXT, finishReply_eq]
        rcases hts : isTsig ⟨mid, resp, rd, cp, tr, q :: rest, ans, ext⟩ with - | ts <;>
          rcases tsigStatus with - | e <;>
          by_cases hn : q.name = "tc.miek.nl." <;>
          by_cases hP : (counter + 1) % 1000 = 0 <;>
          simp [hts, hn, hP, progress_ne_status]
    · by_cases hxfr : q.qtype = typeAXFR ∨ q.qtype = typeIXFR
      · constructor
        · simp only [handleReflect, setReply, Msg.question]
          rw [if_neg hTXT, if_pos hxfr]
          cases trOutOk <;> rfl
        · intro hpf
          subst hpf
          simp only [handleReflect, setReply, Msg.question]
          rw [if_neg hTXT, if_pos hxfr]
          cases trOutOk <;>
            by_cases hP : (counter + 1) % 1000 = 0 <;> simp [hP]
      · constructor
        · simp only [handleReflect, setReply, Msg.question]
          rw [if_neg hTXT, if_neg hxfr,
            finishReply_eq]
        · intro hpf
          subst hpf
          simp only [handleReflect, setReply, Msg.question]
          rw [if_neg hTXT, if_neg hxfr,
            finishReply_eq]
          rcases hts : isTsig ⟨mid, resp, rd, cp, tr, q :: rest, ans, ext⟩ with - | ts <;>
            rcases tsigStatus with - | e <;>
            by_cases hn : q.name = "tc.miek.nl." <;>
            by_cases hP : (counter + 1) % 1000 = 0 <;>
            simp [hts, hn, hP, progress_ne_status]

/-- C9 witness: the 1000th reflection logs the progress line. -/
theorem c9_counter_sequential_witness :
    ((handleReflect (fun _ => []) (fun _ => "") false false 0 true
        ⟨Transport.udp, IP.v4 203 0 113 7, 40000⟩
        { question := [⟨"whoami.miek.nl.", 1, 1⟩] } none 999).counter = 999 + 1) ∧
    ((999 + 1) % 1000 = 0 ↔
      progressLine (999 + 1) ∈
        (handleReflect (fun _ => []) (fun _ => "") false false 0 true
          ⟨Transport.udp, IP.v4 203 0 113 7, 40000⟩
          { question := [⟨"whoami.miek.nl.", 1, 1⟩] } none 999).logs) :=
  ⟨(c9_counter_sequential (fun _ => []) (fun _ => "") false false 0 true
      ⟨Transport.udp, IP.v4 203 0 113 7, 40000⟩
      { question := [⟨"whoami.miek.nl.", 1, 1⟩] } none 999).1,
    (c9_counter_sequential (fun _ => []) (fun _ => "") false false 0 true
      ⟨Transport.udp, IP.v4 203 0 113 7, 40000⟩
      { question := [⟨"whoami.miek.nl.", 1, 1⟩] } none 999).2 rfl⟩

/-- C10: both handlers read the first question unconditionally, so a
message with an empty question section has no defined reply: the
embedding marks it as a Go index-out-of-range panic, and every
reply-shape theorem above assumes a nonempty question section. -/
theorem c10_empty_question_oob (pack : Msg → List Nat) (render : Msg → String)
    (printFlag compressFlag : Bool) (now : Int) (trOutOk : Bool)
    (w : Session) (r : Msg) (tsigStatus : Option String) (counter : Nat)
    (db : List DbRow)
    (hq : r.question = []) :
    (handleReflect pack render printFlag compressFlag now trOutOk
      w r tsigStatus counter).action = Action.oob ∧
    handleSqlite db r = none := by
  obtain ⟨mid, resp, rd, cp, tr, qs, ans, ext⟩ := r
  simp only [Msg.question] at hq
  subst hq
  exact ⟨rfl, rfl⟩

/-- C10 witness: the empty-question message. -/
theorem c10_empty_question_oob_witness :
    (({ } : Msg).question = []) ∧
    ((handleReflect (fun _ => []) (fun _ => "") false false 0 true
      ⟨Transport.udp, IP.v4 203 0 113 7, 40000⟩ { } none 0).action = Action.oob ∧
    handleSqlite [] { } = none) :=
  ⟨rfl,
    c10_empty_question_oob (fun _ => []) (fun _ => "") false false 0 true
      ⟨Transport.udp, IP.v4 203 0 113 7, 40000⟩ { } none 0 [] rfl⟩

end DnsReflect
